import Mathlib

/-!
Verification development for the `not-stakkr` documentation-artifact repository.

The repository holds three machine-generated rustdoc artifacts:

* `tweetr/util/sidebar-items.js` — one call
  `initSidebarItems({"fn": [...], "static": [...]})` listing the items of the
  `tweetr::util` module with their one-line descriptions;
* `implementors/core/iter/iterator/trait.Iterator.js` — two immediately invoked
  scripts, each building an `implementors` table (crate name to a list of impl
  lines) and then either calling `window.register_implementors(implementors)`
  when that callback is defined or storing the table in
  `window.pending_implementors`;
* `implementors/rustc_serialize/serialize/trait.Encodable.js` — one more script
  of the same shape.

The embedding below renders each artifact as explicit data: the sidebar call as
an association list of section key to (name, description) pairs, each
implementors table as an association list of crate name to the doc paths of the
implementing types (the `href` of the type standing after `for` in each impl
line), and the registration tail of each script as a function on an explicit
window state.
-/

/- ### String helpers

Executable character-list primitives used by the classification predicates, so
that every statement below evaluates by kernel reduction. -/

/-- Whether the first list is an initial segment of the second. -/
def charsStarts : List Char → List Char → Bool
  | [], _ => true
  | _ :: _, [] => false
  | c :: cs, d :: ds => c = d && charsStarts cs ds

/-- Whether `pre` is an initial segment of `s`. -/
def strStarts (s pre : String) : Bool := charsStarts pre.data s.data

/-- Whether `pat` occurs contiguously inside the first list. -/
def charsHas : List Char → List Char → Bool
  | [], pat => charsStarts pat []
  | s@(_ :: rest), pat => charsStarts pat s || charsHas rest pat

/-- Whether `pat` occurs contiguously inside `s`. -/
def strHas (s pat : String) : Bool := charsHas s.data pat.data

/- ### The sidebar index (`tweetr/util/sidebar-items.js`) -/

/-- The `"fn"` section of the `initSidebarItems` argument in
`tweetr/util/sidebar-items.js`: each function of `tweetr::util` with its
description, in source order. -/
def sidebarFns : List (String × String) := [
  ("mul_str", "Create a string consisting of `n` repetitions of `what`."),
  ("parse_relative_time", "Parse a relative datetime into a `Duration`."),
  ("prompt_any_len",
   "Ask the user to input a string of any length after printing a prompt prompting."),
  ("prompt_exact_len",
   "Ask the user to input a string of the exact length of `desired_len`, (re)prompting as necessary."),
  ("prompt_multiline",
   "Ask the user to input a multiline string, (re)prompting as necessary."),
  ("prompt_nonzero_len",
   "Ask the user to input a string of non-zero length, (re)prompting as necessary."),
  ("span_r",
   "Runs a closure, returning the duration of time it took to run the closure and the closure's return value.")
]

/-- The `"static"` section of the `initSidebarItems` argument in
`tweetr/util/sidebar-items.js`. -/
def sidebarStatics : List (String × String) := [
  ("TWEET_DATETIME_FORMAT", "The datetime format returned by Twitter when posting.")
]

/-- The whole object passed to `initSidebarItems`: section key to items. -/
def sidebarItems : List (String × List (String × String)) :=
  [("fn", sidebarFns), ("static", sidebarStatics)]

/-- Every item the sidebar index declares, across all of its sections. -/
def sidebarAllItems : List (String × String) := (sidebarItems.map Prod.snd).flatten

/- ### The four behaviors the spec describes for `tweetr::util`

Stated from the spec's words (build a repeated string; parse a relative-time
expression into a duration; prompt a user for input; measure closure execution
time), each as a test on an item's description. -/

/-- Whether a description describes building a repeated string. -/
def describesRepeatedString (d : String) : Bool := strHas d "repetitions"

/-- Whether a description describes parsing a relative-time expression into a
duration. -/
def describesRelativeTimeParse (d : String) : Bool := strHas d "Parse a relative"

/-- Whether a description describes prompting the user for input (the spec's
prompting-with-length-constraints behavior). -/
def describesPromptForInput (d : String) : Bool := strHas d "Ask the user to input"

/-- Whether a description describes measuring a closure's execution time. -/
def describesClosureTiming (d : String) : Bool :=
  strHas d "duration of time it took to run the closure"

/-- How many of the four spec behaviors a description falls into. -/
def behaviorCount (d : String) : Nat :=
  (if describesRepeatedString d then 1 else 0) +
  (if describesRelativeTimeParse d then 1 else 0) +
  (if describesPromptForInput d then 1 else 0) +
  (if describesClosureTiming d then 1 else 0)

/- ### Recovery-behavior vocabulary for the descriptions -/

/-- Words a description would use to mention a recovery behavior other than
reprompting the user. -/
def recoveryWords : List String :=
  ["error", "Error", "Err", "fail", "Fail", "panic", "Panic", "abort",
   "retry", "Retry", "fallback", "Fallback", "default", "Default",
   "None", "unwrap", "exit", "ignore", "ignoring", "skip"]

/-- Whether a description mentions a recovery behavior other than
(re)prompting. -/
def mentionsOtherRecovery (d : String) : Bool := recoveryWords.any (fun w => strHas d w)

/- ### The implementor listing scripts -/

/-- An implementors table as a registration script builds it: each crate name
with the doc paths of the types its impl lines implement the trait for. -/
abbrev ImplTable := List (String × List String)

/-- The implementors table of the first script in implementors/core/iter/iterator/trait.Iterator.js: for each crate key, the doc path of each implementing type (the href of the type after for in each impl entry). -/
def iteratorImplementors : ImplTable := [
  ("vec_map",
   ["vec_map/struct.Iter.html",
    "vec_map/struct.IterMut.html",
    "vec_map/struct.Drain.html",
    "vec_map/struct.Keys.html",
    "vec_map/struct.Values.html",
    "vec_map/struct.IntoIter.html"]),
  ("lazy_static", []),
  ("unicode_normalization",
   ["unicode_normalization/struct.Decompositions.html",
    "unicode_normalization/struct.Recompositions.html"]),
  ("num_iter",
   ["num_iter/struct.Range.html",
    "num_iter/struct.RangeInclusive.html",
    "num_iter/struct.RangeStep.html",
    "num_iter/struct.RangeStepInclusive.html"]),
  ("libc", []),
  ("rustc_serialize",
   ["rustc_serialize/json/struct.Parser.html"]),
  ("solicit",
   ["solicit/http/session/struct.StreamIter.html"]),
  ("url",
   ["url/struct.SocketAddrs.html",
    "url/form_urlencoded/struct.Parse.html",
    "url/form_urlencoded/struct.ParseIntoOwned.html",
    "url/form_urlencoded/struct.ByteSerialize.html",
    "url/percent_encoding/struct.PercentEncode.html",
    "url/percent_encoding/struct.PercentDecode.html"]),
  ("rand",
   ["rand/struct.Generator.html",
    "rand/struct.AsciiGenerator.html"]),
  ("openssl",
   ["https://doc.rust-lang.org/nightly/std/ascii/struct.EscapeDefault.html",
    "https://doc.rust-lang.org/nightly/std/collections/hash/map/struct.Iter.html",
    "https://doc.rust-lang.org/nightly/std/collections/hash/map/struct.IterMut.html",
    "https://doc.rust-lang.org/nightly/std/collections/hash/map/struct.IntoIter.html",
    "https://doc.rust-lang.org/nightly/std/collections/hash/map/struct.Keys.html",
    "https://doc.rust-lang.org/nightly/std/collections/hash/map/struct.Values.html",
    "https://doc.rust-lang.org/nightly/std/collections/hash/map/struct.ValuesMut.html",
    "https://doc.rust-lang.org/nightly/std/collections/hash/map/struct.Drain.html",
    "https://doc.rust-lang.org/nightly/std/collections/hash/set/struct.Iter.html",
    "https://doc.rust-lang.org/nightly/std/collections/hash/set/struct.IntoIter.html",
    "https://doc.rust-lang.org/nightly/std/collections/hash/set/struct.Drain.html",
    "https://doc.rust-lang.org/nightly/std/collections/hash/set/struct.Intersection.html",
    "https://doc.rust-lang.org/nightly/std/collections/hash/set/struct.Difference.html",
    "https://doc.rust-lang.org/nightly/std/collections/hash/set/struct.SymmetricDifference.html",
    "https://doc.rust-lang.org/nightly/std/collections/hash/set/struct.Union.html",
    "https://doc.rust-lang.org/nightly/collections/binary_heap/struct.Iter.html",
    "https://doc.rust-lang.org/nightly/collections/binary_heap/struct.IntoIter.html",
    "https://doc.rust-lang.org/nightly/collections/binary_heap/struct.Drain.html",
    "https://doc.rust-lang.org/nightly/collections/vec_deque/struct.Iter.html",
    "https://doc.rust-lang.org/nightly/collections/vec_deque/struct.IterMut.html",
    "https://doc.rust-lang.org/nightly/collections/vec_deque/struct.IntoIter.html",
    "https://doc.rust-lang.org/nightly/collections/vec_deque/struct.Drain.html",
    "https://doc.rust-lang.org/nightly/collections/linked_list/struct.Iter.html",
    "https://doc.rust-lang.org/nightly/collections/linked_list/struct.IterMut.html",
    "https://doc.rust-lang.org/nightly/collections/linked_list/struct.IntoIter.html",
    "https://doc.rust-lang.org/nightly/std/env/struct.Vars.html",
    "https://doc.rust-lang.org/nightly/std/env/struct.VarsOs.html",
    "https://doc.rust-lang.org/nightly/std/env/struct.SplitPaths.html",
    "https://doc.rust-lang.org/nightly/std/env/struct.Args.html",
    "https://doc.rust-lang.org/nightly/std/env/struct.ArgsOs.html",
    "https://doc.rust-lang.org/nightly/std/fs/struct.ReadDir.html",
    "https://doc.rust-lang.org/nightly/std/io/struct.Bytes.html",
    "https://doc.rust-lang.org/nightly/std/io/struct.Chars.html",
    "https://doc.rust-lang.org/nightly/std/io/struct.Split.html",
    "https://doc.rust-lang.org/nightly/std/io/struct.Lines.html",
    "https://doc.rust-lang.org/nightly/std/net/tcp/struct.Incoming.html",
    "https://doc.rust-lang.org/nightly/std/net/struct.LookupHost.html",
    "https://doc.rust-lang.org/nightly/std/sys/ext/net/struct.Incoming.html",
    "https://doc.rust-lang.org/nightly/std/path/struct.Iter.html",
    "https://doc.rust-lang.org/nightly/std/path/struct.Components.html",
    "https://doc.rust-lang.org/nightly/std/sync/mpsc/struct.Iter.html",
    "https://doc.rust-lang.org/nightly/std/sync/mpsc/struct.IntoIter.html",
    "https://doc.rust-lang.org/nightly/rustc_unicode/char/struct.ToLowercase.html",
    "https://doc.rust-lang.org/nightly/rustc_unicode/char/struct.ToUppercase.html",
    "https://doc.rust-lang.org/nightly/rustc_unicode/char/struct.DecodeUtf16.html",
    "https://doc.rust-lang.org/nightly/alloc/boxed/struct.Box.html",
    "https://doc.rust-lang.org/nightly/collections/str/struct.EncodeUtf16.html",
    "https://doc.rust-lang.org/nightly/collections/string/struct.Drain.html",
    "https://doc.rust-lang.org/nightly/collections/vec/struct.IntoIter.html",
    "https://doc.rust-lang.org/nightly/collections/vec/struct.Drain.html",
    "openssl/x509/struct.GeneralNamesIter.html"]),
  ("chrono",
   ["chrono/format/strftime/struct.StrftimeItems.html"]),
  ("clap",
   ["clap/struct.Values.html",
    "clap/struct.OsValues.html"]),
  ("hyper",
   ["url/host/struct.SocketAddrs.html",
    "url/form_urlencoded/struct.Parse.html",
    "url/form_urlencoded/struct.ParseIntoOwned.html",
    "url/form_urlencoded/struct.ByteSerialize.html",
    "url/percent_encoding/struct.PercentEncode.html",
    "url/percent_encoding/struct.PercentDecode.html",
    "hyper/header/struct.HeadersItems.html",
    "hyper/net/struct.NetworkConnections.html"]),
  ("egg_mode",
   ["egg_mode/user/struct.UserSearch.html",
    "egg_mode/cursor/struct.CursorIter.html"])
]

/-- The implementors table of the second script in implementors/core/iter/iterator/trait.Iterator.js (the core::ops::arith::Add implementors): crate key to the doc paths of the implementing types. -/
def addImplementors : ImplTable := [
  ("chrono",
   ["chrono/naive/date/struct.NaiveDate.html",
    "chrono/naive/time/struct.NaiveTime.html",
    "chrono/naive/datetime/struct.NaiveDateTime.html",
    "chrono/date/struct.Date.html",
    "chrono/datetime/struct.DateTime.html"]),
  ("crypto",
   ["crypto/curve25519/struct.Fe.html",
    "crypto/curve25519/struct.GeP3.html",
    "crypto/curve25519/struct.GeP3.html"]),
  ("openssl",
   ["openssl/bn/struct.BigNum.html"]),
  ("time",
   ["time/struct.Duration.html",
    "time/struct.Timespec.html",
    "time/struct.SteadyTime.html",
    "time/struct.Tm.html"])
]

/-- The implementors table of implementors/rustc_serialize/serialize/trait.Encodable.js: crate key to the doc paths of the implementing types. -/
def encodableImplementors : ImplTable := [
  ("chrono",
   ["chrono/offset/utc/struct.UTC.html",
    "chrono/offset/fixed/struct.FixedOffset.html",
    "chrono/offset/local/struct.Local.html",
    "chrono/naive/date/struct.NaiveDate.html",
    "chrono/naive/time/struct.NaiveTime.html",
    "chrono/naive/datetime/struct.NaiveDateTime.html",
    "chrono/date/struct.Date.html",
    "chrono/datetime/struct.DateTime.html",
    "chrono/enum.Weekday.html"]),
  ("egg_mode",
   ["egg_mode/error/struct.TwitterErrors.html",
    "egg_mode/error/struct.TwitterErrorCode.html"]),
  ("toml",
   ["toml/enum.Value.html"]),
  ("tweetr",
   ["tweetr/ops/struct.User.html",
    "tweetr/ops/struct.AppTokens.html",
    "tweetr/ops/struct.QueuedTweet.html"])
]

/-- Every implementing-type doc path listed across the three implementors
tables of the repository. -/
def allListedTypePaths : List String :=
  ((iteratorImplementors ++ addImplementors ++ encodableImplementors).map Prod.snd).flatten

/-- Every crate key appearing across the three implementors tables. -/
def allCrateKeys : List String :=
  (iteratorImplementors ++ addImplementors ++ encodableImplementors).map Prod.fst

/-- The third-party crates the documentation set was built over (crates.io
libraries; none of them is part of this repository). -/
def externalCrates : List String :=
  ["vec_map", "lazy_static", "unicode_normalization", "num_iter", "libc",
   "rustc_serialize", "solicit", "url", "rand", "openssl", "chrono", "clap",
   "hyper", "egg_mode", "toml", "crypto", "time"]

/-- Whether a doc path points at a type of a third-party library: either a
standard-library page on doc.rust-lang.org, or a page under one of the
external crates documented alongside. -/
def isExternalTypePath (p : String) : Bool :=
  strStarts p "https://doc.rust-lang.org/" ||
  externalCrates.any (fun c => strStarts p (c ++ "/"))

/-- Whether a doc path points into the thin helper module `tweetr::util`. -/
def isHelperModuleTypePath (p : String) : Bool := strStarts p "tweetr/util/"

/- ### The registration tail of each implementor script -/

/-- The window state a registration script interacts with: whether
`window.register_implementors` is defined, and the current value of
`window.pending_implementors`. -/
structure Window where
  hasRegister : Bool
  pending : Option ImplTable
deriving DecidableEq

/-- The tail of every implementor script: with the script-local `implementors`
table built, if `window.register_implementors` is defined the script calls it
once with the table, otherwise it assigns the table to
`window.pending_implementors`. Returns the new window state and the list of
tables passed to `register_implementors` calls. -/
def runImplementorScript (implementors : ImplTable) (w : Window) :
    Window × List ImplTable :=
  if w.hasRegister then (w, [implementors])
  else ({ hasRegister := w.hasRegister, pending := some implementors }, [])

/- ### The repository inventory -/

/-- What a file of the repository holds. -/
inductive ArtifactContent where
  | sidebar (items : List (String × List (String × String)))
  | implListing (scripts : List ImplTable)
  | searchIndex
deriving DecidableEq

/-- Whether a file holds a sidebar-items index. -/
def ArtifactContent.isSidebar : ArtifactContent → Bool
  | .sidebar _ => true
  | _ => false

/-- Whether a file holds trait-implementor listing scripts. -/
def ArtifactContent.isImplListing : ArtifactContent → Bool
  | .implListing _ => true
  | _ => false

/-- Whether a file holds a rustdoc search index. -/
def ArtifactContent.isSearchIndex : ArtifactContent → Bool
  | .searchIndex => true
  | _ => false

/-- The repository contents: path and content of each documentation artifact.
The first three entries are the provided source files. The last is
modelled from the spec: the rustdoc search-index script the spec counts among
the machine-generated artifacts, whose file itself is not among the provided
sources. -/
def repoContents : List (String × ArtifactContent) := [
  ("tweetr/util/sidebar-items.js", .sidebar sidebarItems),
  ("implementors/core/iter/iterator/trait.Iterator.js",
   .implListing [iteratorImplementors, addImplementors]),
  ("implementors/rustc_serialize/serialize/trait.Encodable.js",
   .implListing [encodableImplementors]),
  ("search-index.js", .searchIndex)
]

/- ### Claim theorems -/

set_option maxRecDepth 4000

/-- C1 — counterexample: not every item declared in the tweetr::util sidebar
index has a description falling into exactly one of the four spec behaviors:
the index also declares the static item TWEET_DATETIME_FORMAT, whose
description falls into none of them. -/
theorem sidebar_static_outside_four_behaviors :
    ("TWEET_DATETIME_FORMAT", "The datetime format returned by Twitter when posting.")
      ∈ sidebarAllItems ∧
    behaviorCount "The datetime format returned by Twitter when posting." = 0 ∧
    ¬ (∀ p ∈ sidebarAllItems, behaviorCount p.2 = 1) := by decide

/-- C1 (amended): every function item declared in the tweetr::util sidebar
index has a description falling into exactly one of the four behaviors, while
the static item the index also declares falls into none of them. -/
theorem sidebar_fn_descriptions_four_behaviors :
    (∀ p ∈ sidebarFns, behaviorCount p.2 = 1) ∧
    (∀ p ∈ sidebarStatics, behaviorCount p.2 = 0) := by decide

/-- C1 witness: the amended classification evaluated at mul_str. -/
theorem sidebar_fn_descriptions_four_behaviors_witness :
    behaviorCount "Create a string consisting of `n` repetitions of `what`." = 1 :=
  sidebar_fn_descriptions_four_behaviors.1
    ("mul_str", "Create a string consisting of `n` repetitions of `what`.") (by decide)

/-- C2 — counterexample: the implementing type tweetr::ops::User listed in the
Encodable implementors table is neither from an external crate nor from the
helper module tweetr::util, so not every listed implementing type is. -/
theorem tweetr_ops_type_neither_external_nor_helper :
    "tweetr/ops/struct.User.html" ∈ allListedTypePaths ∧
    isExternalTypePath "tweetr/ops/struct.User.html" = false ∧
    isHelperModuleTypePath "tweetr/ops/struct.User.html" = false ∧
    ¬ (∀ p ∈ allListedTypePaths,
        (isExternalTypePath p || isHelperModuleTypePath p) = true) := by decide

/-- C2 (amended): every implementing type listed in the trait-implementor
tables is from an external crate or from the tweetr crate itself (its ops
module included, not only the tweetr::util helper module). -/
theorem listed_types_external_or_tweetr_crate :
    ∀ p ∈ allListedTypePaths,
      isExternalTypePath p = true ∨ strStarts p "tweetr/" = true := by decide

/-- C2 witness: the amended statement evaluated at tweetr::ops::User. -/
theorem listed_types_external_or_tweetr_crate_witness :
    isExternalTypePath "tweetr/ops/struct.User.html" = true ∨
    strStarts "tweetr/ops/struct.User.html" "tweetr/" = true :=
  listed_types_external_or_tweetr_crate "tweetr/ops/struct.User.html" (by decide)

/-- C3 — counterexample: a registration script's effect does branch on its
environment: on a window with register_implementors defined and on one without
it, running the Encodable script has different effects. -/
theorem script_effect_differs_across_windows :
    runImplementorScript encodableImplementors (Window.mk true none) ≠
    runImplementorScript encodableImplementors (Window.mk false none) := by decide

/-- C3 (amended): a registration script branches only on whether
window.register_implementors is defined: on any two prior window states
agreeing on that, it makes the same calls, and updates the pending slot the
same way in both (left unchanged in both, or set to the script's table in
both). -/
theorem script_branches_only_on_register :
    ∀ (t : ImplTable) (w₁ w₂ : Window), w₁.hasRegister = w₂.hasRegister →
      (runImplementorScript t w₁).2 = (runImplementorScript t w₂).2 ∧
      (((runImplementorScript t w₁).1.pending = w₁.pending ∧
        (runImplementorScript t w₂).1.pending = w₂.pending) ∨
       ((runImplementorScript t w₁).1.pending = some t ∧
        (runImplementorScript t w₂).1.pending = some t)) := by
  intro t w₁ w₂ h
  cases hb : w₁.hasRegister
  · have hb₂ : w₂.hasRegister = false := by rw [← h, hb]
    simp [runImplementorScript, hb, hb₂]
  · have hb₂ : w₂.hasRegister = true := by rw [← h, hb]
    simp [runImplementorScript, hb, hb₂]

/-- C3 witness: the amended statement at two windows without
register_implementors, one with a table already pending. -/
theorem script_branches_only_on_register_witness :
    (runImplementorScript encodableImplementors (Window.mk false none)).2 =
      (runImplementorScript encodableImplementors
        (Window.mk false (some iteratorImplementors))).2 ∧
    (((runImplementorScript encodableImplementors (Window.mk false none)).1.pending =
        (Window.mk false none).pending ∧
      (runImplementorScript encodableImplementors
        (Window.mk false (some iteratorImplementors))).1.pending =
        (Window.mk false (some iteratorImplementors)).pending) ∨
     ((runImplementorScript encodableImplementors (Window.mk false none)).1.pending =
        some encodableImplementors ∧
      (runImplementorScript encodableImplementors
        (Window.mk false (some iteratorImplementors))).1.pending =
        some encodableImplementors)) :=
  script_branches_only_on_register encodableImplementors
    (Window.mk false none) (Window.mk false (some iteratorImplementors)) rfl

/-- C4: the repository contents are rustdoc artifacts of exactly three shapes
(sidebar-items index, trait-implementor listing scripts, search-index script),
and a search-index script is among them. -/
theorem repo_contents_inventory :
    repoContents.all
      (fun f => f.2.isSidebar || f.2.isImplListing || f.2.isSearchIndex) = true ∧
    ("search-index.js", ArtifactContent.searchIndex) ∈ repoContents := by decide

/-- C5: the only recovery behavior a tweetr::util function description
mentions for unacceptable input is (re)prompting the user: no description
mentions any other recovery word, every description that mentions
(re)prompting says exactly "(re)prompting as necessary", and some do. -/
theorem sidebar_fn_recovery_only_reprompting :
    sidebarFns.all (fun p => !mentionsOtherRecovery p.2) = true ∧
    sidebarFns.all
      (fun p => !strHas p.2 "(re)prompting" || strHas p.2 "(re)prompting as necessary") = true ∧
    sidebarFns.any (fun p => strHas p.2 "(re)prompting as necessary") = true := by decide

/-- C6 — counterexample: the tweetr::util sidebar index does not declare only
functions: it has a nonempty "static" section as well. -/
theorem sidebar_declares_static_section :
    ¬ (∀ kv ∈ sidebarItems, kv.1 = "fn") ∧ sidebarStatics ≠ [] := by decide

/-- C6 (amended): the tweetr::util sidebar index declares its functions under
the single key "fn" plus exactly one static data item, TWEET_DATETIME_FORMAT,
under "static". -/
theorem sidebar_sections_fn_and_one_static :
    sidebarItems.map Prod.fst = ["fn", "static"] ∧
    sidebarStatics.map Prod.fst = ["TWEET_DATETIME_FORMAT"] := by decide

/-- C7: every symbol of the artifacts that is not from a third-party library
lies under the tweetr crate: every crate key of the implementors tables is a
known external crate or "tweetr", every listed implementing type is external
or under tweetr/, and the sidebar index itself sits under tweetr/util. -/
theorem own_symbols_under_tweetr :
    allCrateKeys.all (fun c => externalCrates.contains c || c == "tweetr") = true ∧
    allListedTypePaths.all
      (fun p => isExternalTypePath p || strStarts p "tweetr/") = true ∧
    strStarts "tweetr/util/sidebar-items.js" "tweetr/util/" = true ∧
    ("tweetr/util/sidebar-items.js", ArtifactContent.sidebar sidebarItems) ∈ repoContents := by
  decide

/-- C8: a registration script performs exactly one of two actions, never both:
with register_implementors defined it calls it exactly once with the script's
table and leaves pending_implementors unchanged; without it, it calls nothing
and assigns the table to pending_implementors. -/
theorem runImplementorScript_exactly_one_action :
    ∀ (t : ImplTable) (w : Window),
      (w.hasRegister = true →
        (runImplementorScript t w).2 = [t] ∧
        (runImplementorScript t w).1.pending = w.pending) ∧
      (w.hasRegister = false →
        (runImplementorScript t w).2 = [] ∧
        (runImplementorScript t w).1.pending = some t) := by
  intro t w
  cases hb : w.hasRegister <;> simp [runImplementorScript, hb]

/-- C8 witness: both branches evaluated on concrete windows with the Encodable
table. -/
theorem runImplementorScript_exactly_one_action_witness :
    (runImplementorScript encodableImplementors (Window.mk true none)).2 =
      [encodableImplementors] ∧
    (runImplementorScript encodableImplementors (Window.mk false none)).1.pending =
      some encodableImplementors :=
  ⟨((runImplementorScript_exactly_one_action encodableImplementors
      (Window.mk true none)).1 rfl).1,
   ((runImplementorScript_exactly_one_action encodableImplementors
      (Window.mk false none)).2 rfl).2⟩

/-- C9: with register_implementors undefined, a registration script assigns
its table to pending_implementors wholesale, changes nothing else of the
window, calls nothing, and a second such script then overwrites that pending
table with its own rather than merging it. -/
theorem runImplementorScript_pending_overwritten :
    ∀ (t₁ t₂ : ImplTable) (w : Window), w.hasRegister = false →
      (runImplementorScript t₁ w).1 = Window.mk w.hasRegister (some t₁) ∧
      (runImplementorScript t₁ w).2 = [] ∧
      (runImplementorScript t₂ (runImplementorScript t₁ w).1).1.pending = some t₂ := by
  intro t₁ t₂ w h
  simp [runImplementorScript, h]

/-- C9 witness: running the Iterator script and then the Encodable script with
register_implementors undefined leaves only the Encodable table pending. -/
theorem runImplementorScript_pending_overwritten_witness :
    (runImplementorScript iteratorImplementors (Window.mk false none)).1 =
      Window.mk false (some iteratorImplementors) ∧
    (runImplementorScript iteratorImplementors (Window.mk false none)).2 = [] ∧
    (runImplementorScript encodableImplementors
      (runImplementorScript iteratorImplementors (Window.mk false none)).1).1.pending =
      some encodableImplementors :=
  runImplementorScript_pending_overwritten iteratorImplementors encodableImplementors
    (Window.mk false none) rfl

/-- C10: the object passed to initSidebarItems has exactly the keys "fn" and
"static"; the fn section declares seven functions and the static section is
exactly TWEET_DATETIME_FORMAT with its Twitter datetime-format description. -/
theorem sidebar_index_shape :
    sidebarItems.map Prod.fst = ["fn", "static"] ∧
    sidebarFns.length = 7 ∧
    sidebarStatics = [("TWEET_DATETIME_FORMAT",
      "The datetime format returned by Twitter when posting.")] := by decide
